import Mathlib

/-!
# Verification of the troverai repository against its specification

This file gives a shallow embedding, in Lean 4, of the parts of the
troverai code base (a set of Python command-line utilities around the
RaiPlay catalog) that the specification talks about, and proves or
refutes the specification claims over that embedding.

Modelling conventions:
* Python strings are Lean `String`s (lists of unicode scalar values);
  `str.lower()` is modelled at the ASCII level (`asciiLower`), which is
  exact on the ASCII channel names, dates and JSON the programs handle.
* Fallible Python code is embedded with `Option`/`Except`: an uncaught
  exception becomes an `Except.error`.
* The wall clock (`datetime.now()`), the file system and the HTTP
  responses are explicit parameters; file writes are returned as an
  explicit list of written file names.
* Machine arithmetic: Python integers are unbounded (`Int`/`Nat`);
  `datetime`/`timedelta` bounds (years 1..9999, `timedelta` days at
  most 999999999 in magnitude) are modelled explicitly because the code
  can overflow them.
-/

/-- ASCII lowering of one character, the model of Python `str.lower()`
on the ASCII range. -/
def asciiLower (c : Char) : Char :=
  if 65 ≤ c.toNat && c.toNat ≤ 90 then Char.ofNat (c.toNat + 32) else c

/-- Model of Python `s.lower()` (ASCII range). -/
def lowerStr (s : String) : String := String.mk (s.data.map asciiLower)

/-- Python truthiness of a string: `""` is falsy. -/
def pyTruthy (s : String) : Bool := !(s == "")

/-- Python truthiness of an optional string (`None` and `""` are falsy). -/
def pyTruthyOpt : Option String → Bool
  | none => false
  | some s => pyTruthy s

/-- `listStartsWith s p` is true when the pattern `p` is an initial
segment of `s`; model of Python `s.startswith(p)`. -/
def listStartsWith : List Char → List Char → Bool
  | _, [] => true
  | [], _ :: _ => false
  | c :: cs, p :: ps => c == p && listStartsWith cs ps

/-- Association-list lookup, the model of a Python dict membership test
plus indexing (`clean in CHANNEL_MAP` / `CHANNEL_MAP[clean]`). -/
def dictLookup (k : String) : List (String × String) → Option String
  | [] => none
  | (k1, v) :: rest => if k == k1 then some v else dictLookup k rest

/-- The `CHANNEL_MAP` dictionary of `troverai/utils.py` (display name
with spaces/hyphens removed, mapped to the API name). -/
def CHANNEL_MAP : List (String × String) :=
  [ ("rai1", "rai-1"), ("rai2", "rai-2"), ("rai3", "rai-3"),
    ("rai4", "rai-4"), ("rai5", "rai-5"), ("raimovie", "rai-movie"),
    ("raipremium", "rai-premium"), ("raigulp", "rai-gulp"),
    ("raiyoyo", "rai-yoyo"), ("raistoria", "rai-storia"),
    ("raiscuola", "rai-scuola"), ("rainews24", "rai-news-24"),
    ("raisport", "rai-sport") ]

/-- `channel.lower().replace(" ", "").replace("-", "")` from
`normalize_channel`. -/
def cleanChannel (s : String) : String :=
  String.mk ((s.data.map asciiLower).filter (fun c => !(c == ' ' || c == '-')))

/-- `normalize_channel` from `troverai/utils.py`: map through
`CHANNEL_MAP`, keep strings already starting with `"rai-"`, otherwise
prepend `"rai-"` to the lowercased name. -/
def normalize_channel (channel : String) : String :=
  match dictLookup (cleanChannel channel) CHANNEL_MAP with
  | some v => v
  | none =>
    if listStartsWith channel.data ("rai-".data) then channel
    else String.mk (("rai-".data) ++ (channel.data.map asciiLower))

/-! ## Schedule events and the filtering operations (claim C7) -/

/-- A schedule event, as the filtering code sees it: its Python
truthiness (`None`/`{}` entries are falsy), its `"hour"` field, and the
two `dfp` sub-fields consulted by `filter_by_dfp`; a missing field is
`none`. -/
structure Event where
  truthy : Bool
  hour : Option String
  dfp_typology : Option String
  dfp_genre : Option String
deriving DecidableEq

/-- `event.get("hour", "00:00")`. -/
def Event.hourD (e : Event) : String := e.hour.getD "00:00"

/-- The loop body of `filter_by_dfp` (`troverai/utils.py`): skip falsy
events, then skip events failing the typology or genre comparison. -/
def filter_by_dfp_go (tipo genere : Option String) : List Event → List Event
  | [] => []
  | e :: rest =>
    if !e.truthy then filter_by_dfp_go tipo genere rest
    else if pyTruthyOpt tipo &&
        !(lowerStr (e.dfp_typology.getD "") == lowerStr (tipo.getD "")) then
      filter_by_dfp_go tipo genere rest
    else if pyTruthyOpt genere &&
        !(lowerStr (e.dfp_genre.getD "") == lowerStr (genere.getD "")) then
      filter_by_dfp_go tipo genere rest
    else e :: filter_by_dfp_go tipo genere rest

/-- `filter_by_dfp` from `troverai/utils.py`: with neither filter set
(falsy `tipo` and `genere`) the input list is returned unchanged. -/
def filter_by_dfp (events : List Event) (tipo genere : Option String) : List Event :=
  if !pyTruthyOpt tipo && !pyTruthyOpt genere then events
  else filter_by_dfp_go tipo genere events

/-- The loop body of the time-range filter of `cmd_schedule`
(`troverai/commands.py` lines 51-60): drop events whose hour is below
`dalle` or above `alle` (Python string comparison). -/
def time_range_filter_go (dalle alle : Option String) : List Event → List Event
  | [] => []
  | e :: rest =>
    if pyTruthyOpt dalle && decide (e.hourD < dalle.getD "") then
      time_range_filter_go dalle alle rest
    else if pyTruthyOpt alle && decide (alle.getD "" < e.hourD) then
      time_range_filter_go dalle alle rest
    else e :: time_range_filter_go dalle alle rest

/-- The time-range filtering block of `cmd_schedule`: it only runs when
`args.dalle or args.alle` is truthy. -/
def time_range_filter (dalle alle : Option String) (events : List Event) : List Event :=
  if !pyTruthyOpt dalle && !pyTruthyOpt alle then events
  else time_range_filter_go dalle alle events

/-! ## A model of `json.loads` (Python's `json` module)

The parser works on lists of unicode code points (`List Nat`) because
Python strings arising from `\uXXXX` escapes may contain lone
surrogates, which Lean `Char` cannot hold.  A number is kept exactly as
the pair (mantissa, decimal exponent) read off its text, denoting
`mantissa * 10 ^ exp10` (Python parses numbers with `int`/`float`; the
claims under verification never depend on float rounding).  `NaN`,
`Infinity` and `-Infinity` are accepted, as Python does by default. -/

/-- A parsed JSON value. -/
inductive JVal where
  | null
  | bool (b : Bool)
  | num (m : Int) (e10 : Int)
  | nan
  | inf (neg : Bool)
  | str (s : List Nat)
  | arr (items : List JVal)
  | obj (items : List (List Nat × JVal))

/-- JSON whitespace (space, tab, newline, carriage return). -/
def jsonWsChar (c : Nat) : Bool := c == 32 || c == 9 || c == 10 || c == 13

/-- Skip JSON whitespace. -/
def skipWs : List Nat → List Nat
  | [] => []
  | c :: rest => if jsonWsChar c then skipWs rest else c :: rest

/-- Value of one hex digit. -/
def hexVal (c : Nat) : Option Nat :=
  if 48 ≤ c && c ≤ 57 then some (c - 48)
  else if 97 ≤ c && c ≤ 102 then some (c - 87)
  else if 65 ≤ c && c ≤ 70 then some (c - 55)
  else none

/-- The single-character JSON string escapes. -/
def escMap (c : Nat) : Option Nat :=
  if c == 34 then some 34
  else if c == 92 then some 92
  else if c == 47 then some 47
  else if c == 98 then some 8
  else if c == 102 then some 12
  else if c == 110 then some 10
  else if c == 114 then some 13
  else if c == 116 then some 9
  else none

/-- Parse a JSON string body (the opening quote already consumed),
following Python's `py_scanstring` in strict mode: raw control
characters are rejected, `\uXXXX` escapes are decoded with surrogate
pairing, and lone surrogates are kept.  Returns the decoded code
points and the remaining input. -/
def pStr : Nat → List Nat → Option (List Nat × List Nat)
  | 0, _ => none
  | _, [] => none
  | _ + 1, 34 :: rest => some ([], rest)
  | fuel + 1, 92 :: rest =>
    match rest with
    | [] => none
    | e :: rest2 =>
      if e == 117 then
        match rest2 with
        | h1 :: h2 :: h3 :: h4 :: rest3 =>
          match hexVal h1, hexVal h2, hexVal h3, hexVal h4 with
          | some a, some b, some c, some d =>
            let v := ((a * 16 + b) * 16 + c) * 16 + d
            if 55296 ≤ v && v ≤ 56319 then
              match rest3 with
              | 92 :: 117 :: rest4 =>
                match rest4 with
                | g1 :: g2 :: g3 :: g4 :: rest5 =>
                  match hexVal g1, hexVal g2, hexVal g3, hexVal g4 with
                  | some a2, some b2, some c2, some d2 =>
                    let w := ((a2 * 16 + b2) * 16 + c2) * 16 + d2
                    if 56320 ≤ w && w ≤ 57343 then
                      (pStr fuel rest5).map
                        (fun p => ((65536 + (v - 55296) * 1024 + (w - 56320)) :: p.1, p.2))
                    else
                      (pStr fuel rest3).map (fun p => (v :: p.1, p.2))
                  | _, _, _, _ => none
                | _ => none
              | _ => (pStr fuel rest3).map (fun p => (v :: p.1, p.2))
            else
              (pStr fuel rest3).map (fun p => (v :: p.1, p.2))
          | _, _, _, _ => none
        | _ => none
      else
        match escMap e with
        | some d => (pStr fuel rest2).map (fun p => (d :: p.1, p.2))
        | none => none
  | fuel + 1, c :: rest =>
    if c < 32 then none else (pStr fuel rest).map (fun p => (c :: p.1, p.2))

/-- Longest initial run of decimal digits. -/
def takeDigits : List Nat → List Nat × List Nat
  | [] => ([], [])
  | c :: rest =>
    if 48 ≤ c && c ≤ 57 then
      let p := takeDigits rest
      (c :: p.1, p.2)
    else ([], c :: rest)

/-- Numeric value of a digit run. -/
def digitsToNat (ds : List Nat) : Nat := ds.foldl (fun acc d => acc * 10 + (d - 48)) 0

/-- Optional exponent part `([eE][-+]?\d+)?` of the JSON number
grammar; `m` is the mantissa read so far and `fl` the number of
fraction digits.  Returns (mantissa, decimal exponent, rest). -/
def pNumExpTail (m : Nat) (fl : Nat) (s : List Nat) : Int × Int × List Nat :=
  match s with
  | c :: r =>
    if c == 101 || c == 69 then
      match r with
      | 43 :: r2 =>
        let p := takeDigits r2
        if p.1.isEmpty then ((m : Int), -(fl : Int), s)
        else ((m : Int), (digitsToNat p.1 : Int) - (fl : Int), p.2)
      | 45 :: r2 =>
        let p := takeDigits r2
        if p.1.isEmpty then ((m : Int), -(fl : Int), s)
        else ((m : Int), -(digitsToNat p.1 : Int) - (fl : Int), p.2)
      | _ =>
        let p := takeDigits r
        if p.1.isEmpty then ((m : Int), -(fl : Int), s)
        else ((m : Int), (digitsToNat p.1 : Int) - (fl : Int), p.2)
    else ((m : Int), -(fl : Int), s)
  | [] => ((m : Int), -(fl : Int), [])

/-- Optional fractional part `(\.\d+)?` then exponent. -/
def pNumTail (ip : Nat) (s : List Nat) : Int × Int × List Nat :=
  match s with
  | 46 :: r =>
    let p := takeDigits r
    if p.1.isEmpty then pNumExpTail ip 0 s
    else pNumExpTail (ip * 10 ^ p.1.length + digitsToNat p.1) p.1.length p.2
  | _ => pNumExpTail ip 0 s

/-- Nonnegative JSON number: `(0|[1-9]\d*)` then fraction and exponent. -/
def pNumAbs (s : List Nat) : Option (Int × Int × List Nat) :=
  match s with
  | 48 :: rest => some (pNumTail 0 rest)
  | c :: rest =>
    if 49 ≤ c && c ≤ 57 then
      let p := takeDigits rest
      some (pNumTail (digitsToNat (c :: p.1)) p.2)
    else none
  | [] => none

/-- A JSON number (`NUMBER_RE` of Python's `json.scanner`). -/
def pNum (s : List Nat) : Option (Int × Int × List Nat) :=
  match s with
  | 45 :: rest => (pNumAbs rest).map (fun p => (-p.1, p.2))
  | _ => pNumAbs s

/-- `listStartsWith` over code-point lists. -/
def listStartsWithNat : List Nat → List Nat → Bool
  | _, [] => true
  | [], _ :: _ => false
  | c :: cs, p :: ps => c == p && listStartsWithNat cs ps

/-- Parser modes: a value, the element loop of an array (accumulated
elements in reverse), or the pair loop of an object. -/
inductive PMode where
  | value
  | arrLoop (acc : List JVal)
  | objLoop (acc : List (List Nat × JVal))

/-- One fuel-indexed step of the recursive-descent JSON parser,
mirroring `py_make_scanner`/`JSONArray`/`JSONObject` of Python's
`json.decoder` (strict mode, default hooks). -/
def pStep : Nat → PMode → List Nat → Option (JVal × List Nat)
  | 0, _, _ => none
  | fuel + 1, PMode.value, s =>
    match s with
    | 34 :: rest => (pStr (rest.length + 1) rest).map (fun p => (JVal.str p.1, p.2))
    | 123 :: rest =>
      match skipWs rest with
      | 125 :: rest2 => some (JVal.obj [], rest2)
      | r => pStep fuel (PMode.objLoop []) r
    | 91 :: rest =>
      match skipWs rest with
      | 93 :: rest2 => some (JVal.arr [], rest2)
      | r => pStep fuel (PMode.arrLoop []) r
    | _ =>
      if listStartsWithNat s [110, 117, 108, 108] then some (JVal.null, s.drop 4)
      else if listStartsWithNat s [116, 114, 117, 101] then some (JVal.bool true, s.drop 4)
      else if listStartsWithNat s [102, 97, 108, 115, 101] then some (JVal.bool false, s.drop 5)
      else
        match pNum s with
        | some p => some (JVal.num p.1 p.2.1, p.2.2)
        | none =>
          if listStartsWithNat s [78, 97, 78] then some (JVal.nan, s.drop 3)
          else if listStartsWithNat s [73, 110, 102, 105, 110, 105, 116, 121] then
            some (JVal.inf false, s.drop 8)
          else if listStartsWithNat s [45, 73, 110, 102, 105, 110, 105, 116, 121] then
            some (JVal.inf true, s.drop 9)
          else none
  | fuel + 1, PMode.arrLoop acc, s =>
    match pStep fuel PMode.value s with
    | none => none
    | some (v, rest) =>
      match skipWs rest with
      | 93 :: rest2 => some (JVal.arr (v :: acc).reverse, rest2)
      | 44 :: rest2 => pStep fuel (PMode.arrLoop (v :: acc)) (skipWs rest2)
      | _ => none
  | fuel + 1, PMode.objLoop acc, s =>
    match s with
    | 34 :: rest =>
      match pStr (rest.length + 1) rest with
      | none => none
      | some (key, rest2) =>
        match skipWs rest2 with
        | 58 :: rest3 =>
          match pStep fuel PMode.value (skipWs rest3) with
          | none => none
          | some (v, rest4) =>
            match skipWs rest4 with
            | 125 :: rest5 => some (JVal.obj ((key, v) :: acc).reverse, rest5)
            | 44 :: rest5 =>
              match skipWs rest5 with
              | 34 :: rest6 => pStep fuel (PMode.objLoop ((key, v) :: acc)) (34 :: rest6)
              | _ => none
            | _ => none
        | _ => none
    | _ => none

/-- The model of `json.loads` on a decoded text (Python
`JSONDecoder.decode`): skip surrounding whitespace, parse one value,
demand the whole input is consumed.  `none` models a raised
`json.JSONDecodeError`. -/
def pyJsonParse (s : List Nat) : Option JVal :=
  let t := skipWs s
  match pStep (2 * t.length + 4) PMode.value t with
  | none => none
  | some (v, rest) => if (skipWs rest).isEmpty then some v else none

/-- Code points of a Lean string. -/
def strCodes (s : String) : List Nat := s.data.map Char.toNat

/-! ## `fetch_schedule` from `troverai/api.py` (claim C4) -/

/-- An HTTP response as `requests` presents it to this code: a status
code and the decoded body text. -/
structure HttpResponse where
  status : Nat
  body : String

/-- `fetch_schedule` from `troverai/api.py`, with the HTTP response as
an explicit parameter; the second component is the list of messages
printed to stderr.  A non-200 status prints an error and returns
`None`; a body that `response.json()` cannot parse prints an error and
returns `None`; otherwise the parsed body is returned. -/
def fetch_schedule (resp : HttpResponse) : Option JVal × List String :=
  if resp.status ≠ 200 then (none, ["Error: HTTP <status> for <url>"])
  else
    match pyJsonParse (strCodes resp.body) with
    | some v => (some v, [])
    | none => (none, ["Error: Invalid JSON response"])

/-! ## The `JSONFixer` repair passes (`SperimenteRAI/jsonfix.py`)

Each method of the `JSONFixer` class becomes a function on lists of
characters.  Python's `\s` and `\b`/`\w` regex classes are modelled at
the ASCII level.  The bounded re-substitution loops of the source
(`while True: ... if unchanged: break`) terminate because every change
strictly shrinks the string, so a fuel of `length + 1` rounds is
exact. -/

/-- Opening brace character. -/
def obrace : Char := Char.ofNat 123

/-- Closing brace character. -/
def cbrace : Char := Char.ofNat 125

/-- Single-quote character. -/
def squote : Char := Char.ofNat 39

/-- ASCII part of the regex class `\s`. -/
def pySpaceB (c : Char) : Bool :=
  c == ' ' || c == '\t' || c == '\n' || c == '\r' || c.toNat == 11 || c.toNat == 12

/-- ASCII part of the regex class `\w` (word characters). -/
def wordCharB (c : Char) : Bool :=
  (65 ≤ c.toNat && c.toNat ≤ 90) || (97 ≤ c.toNat && c.toNat ≤ 122) ||
    (48 ≤ c.toNat && c.toNat ≤ 57) || c == '_'

/-- `[a-zA-Z_]`, the first character of an unquoted key. -/
def identStartB (c : Char) : Bool :=
  (65 ≤ c.toNat && c.toNat ≤ 90) || (97 ≤ c.toNat && c.toNat ≤ 122) || c == '_'

/-- `[a-zA-Z0-9_]`, the following characters of an unquoted key. -/
def identCharB (c : Char) : Bool := identStartB c || (48 ≤ c.toNat && c.toNat ≤ 57)

/-- `fix_bom`: strip a leading byte order mark. -/
def fix_bom (s : List Char) : List Char :=
  match s with
  | c :: rest => if c.toNat == 65279 then rest else s
  | [] => []

/-- Skip to the end of a `/* ... */` comment (the `/*` already
consumed); an unterminated comment swallows the rest of the input,
exactly as the index arithmetic of the source does. -/
def skipBlockComment : List Char → List Char
  | [] => []
  | [_] => []
  | x :: y :: rest => if x == '*' && y == '/' then rest else skipBlockComment (y :: rest)

/-- The character scan of `fix_comments`: a state machine over
(in_string, escape_next) removing `//` and `/* */` comments outside
strings. -/
def fix_comments_go : Nat → Bool → Bool → List Char → List Char
  | 0, _, _, s => s
  | fuel + 1, inStr, escNext, s =>
    match s with
    | [] => []
    | c :: rest =>
      if escNext then c :: fix_comments_go fuel inStr false rest
      else if c == '\\' && inStr then c :: fix_comments_go fuel inStr true rest
      else if c == '\"' then c :: fix_comments_go fuel (!inStr) escNext rest
      else if !inStr && c == '/' then
        match rest with
        | [] => c :: fix_comments_go fuel inStr escNext rest
        | next :: rest2 =>
          if next == '/' then
            fix_comments_go fuel inStr escNext (List.dropWhile (fun x => !(x == '\n')) rest2)
          else if next == '*' then
            fix_comments_go fuel inStr escNext (skipBlockComment rest2)
          else c :: fix_comments_go fuel inStr escNext rest
      else c :: fix_comments_go fuel inStr escNext rest

/-- `fix_comments` of `jsonfix.py`. -/
def fix_comments (s : List Char) : List Char := fix_comments_go (s.length + 1) false false s

/-- `content.replace("\t", "\\t")`. -/
def expandTabs : List Char → List Char
  | [] => []
  | c :: rest => if c == '\t' then '\\' :: 't' :: expandTabs rest else c :: expandTabs rest

/-- The regex class `[\x00-\x08\x0b\x0c\x0e-\x1f]`. -/
def ctrlClassB (c : Char) : Bool :=
  c.toNat ≤ 8 || c.toNat == 11 || c.toNat == 12 || (14 ≤ c.toNat && c.toNat ≤ 31)

/-- `fix_control_characters`: the ordered `str.replace` table (tab,
carriage return, NUL, unit separator) followed by the control-class
regex removal. -/
def fix_control_characters (s : List Char) : List Char :=
  let s1 := expandTabs s
  let s2 := s1.filter (fun c => !(c == '\r'))
  let s3 := s2.filter (fun c => !(c.toNat == 0))
  let s4 := s3.filter (fun c => !(c.toNat == 31))
  s4.filter (fun c => !(ctrlClassB c))

/-- One pass of `re.sub(r"\b<word>\b", repl, s)` for a word made of
word characters: leftmost, non-overlapping, with `\b` judged against
the original neighbours.  `wLast` is the word's final character, the
left context after a replacement. -/
def subWordGo (w repl : List Char) (wLast : Char) : Nat → Option Char → List Char → List Char
  | 0, _, s => s
  | fuel + 1, prev, s =>
    match s with
    | [] => []
    | c :: rest =>
      let prevOk := match prev with | none => true | some p => !wordCharB p
      let nextOk := match (s.drop w.length).head? with | none => true | some d => !wordCharB d
      if prevOk && listStartsWith s w && nextOk then
        repl ++ subWordGo w repl wLast fuel (some wLast) (s.drop w.length)
      else c :: subWordGo w repl wLast fuel (some c) rest

/-- Whole-word substitution over a string. -/
def subWordAll (w repl : List Char) (wLast : Char) (s : List Char) : List Char :=
  subWordGo w repl wLast (s.length + 1) none s

/-- `fix_infinity_nan`: replace `Infinity`, `NaN`, `undefined` (as
whole words, in this order) by `null`. -/
def fix_infinity_nan (s : List Char) : List Char :=
  subWordAll ("undefined".data) ("null".data) 'd'
    (subWordAll ("NaN".data) ("null".data) 'N'
      (subWordAll ("Infinity".data) ("null".data) 'y' s))

/-- The character scan of `fix_single_quotes`: a state machine over
(in_double_string, in_single_string, escape_next) turning
single-quoted strings into double-quoted ones. -/
def fix_single_quotes_go : Nat → Bool → Bool → Bool → List Char → List Char
  | 0, _, _, _, s => s
  | fuel + 1, inD, inS, escNext, s =>
    match s with
    | [] => []
    | c :: rest =>
      if escNext then c :: fix_single_quotes_go fuel inD inS false rest
      else if c == '\\' then c :: fix_single_quotes_go fuel inD inS true rest
      else if c == '\"' && !inS then c :: fix_single_quotes_go fuel (!inD) inS escNext rest
      else if c == squote && !inD then '\"' :: fix_single_quotes_go fuel inD (!inS) escNext rest
      else c :: fix_single_quotes_go fuel inD inS escNext rest

/-- `fix_single_quotes` of `jsonfix.py`. -/
def fix_single_quotes (s : List Char) : List Char :=
  fix_single_quotes_go (s.length + 1) false false false s

/-- One pass of `re.sub` for the unquoted-key pattern
`([{,]\s*)([a-zA-Z_][a-zA-Z0-9_]*)(\s*:)`. -/
def subUnquotedGo : Nat → List Char → List Char
  | 0, s => s
  | fuel + 1, s =>
    match s with
    | [] => []
    | c :: rest =>
      if c == obrace || c == ',' then
        let p1 := List.span pySpaceB rest
        match p1.2 with
        | k :: kr =>
          if identStartB k then
            let p2 := List.span identCharB kr
            let p3 := List.span pySpaceB p2.2
            match p3.2 with
            | colon :: r4 =>
              if colon == ':' then
                c :: (p1.1 ++ '\"' :: (k :: p2.1) ++ '\"' :: (p3.1 ++ ':' :: subUnquotedGo fuel r4))
              else c :: subUnquotedGo fuel rest
            | [] => c :: subUnquotedGo fuel rest
          else c :: subUnquotedGo fuel rest
        | [] => c :: subUnquotedGo fuel rest
      else c :: subUnquotedGo fuel rest

/-- `fix_unquoted_keys`: the substitution applied up to five times,
stopping when a pass changes nothing. -/
def iterN : Nat → List Char → List Char
  | 0, s => s
  | n + 1, s =>
    let s2 := subUnquotedGo (s.length + 1) s
    if s2 == s then s else iterN n s2

/-- `fix_unquoted_keys` of `jsonfix.py`. -/
def fix_unquoted_keys (s : List Char) : List Char := iterN 5 s

/-- Iterate a substitution pass until it changes nothing (the
`while True ... break` loops of the source); each changing pass
strictly shrinks the string, so `length + 1` rounds reach the
fixpoint. -/
def iterFix : Nat → (List Char → List Char) → List Char → List Char
  | 0, _, s => s
  | n + 1, f, s =>
    let s2 := f s
    if s2 == s then s else iterFix n f s2

/-- Greedy `(\s*,)+`: consume at least one whitespace-then-comma
group, as many as possible; returns the rest after the last comma. -/
def commaGroupsGo : Nat → List Char → Option (List Char)
  | 0, _ => none
  | fuel + 1, s =>
    let p := List.span pySpaceB s
    match p.2 with
    | c :: r2 =>
      if c == ',' then
        match commaGroupsGo fuel r2 with
        | some rest => some rest
        | none => some r2
      else none
    | [] => none

/-- One pass of `re.sub(r",(\s*,)+", ",", s)`. -/
def subMultipleGo : Nat → List Char → List Char
  | 0, s => s
  | fuel + 1, s =>
    match s with
    | [] => []
    | c :: rest =>
      if c == ',' then
        match commaGroupsGo (rest.length + 1) rest with
        | some r2 => ',' :: subMultipleGo fuel r2
        | none => ',' :: subMultipleGo fuel rest
      else c :: subMultipleGo fuel rest

/-- `fix_multiple_commas` of `jsonfix.py`. -/
def fix_multiple_commas (s : List Char) : List Char :=
  iterFix (s.length + 1) (fun t => subMultipleGo (t.length + 1) t) s

/-- One pass of `re.sub(r"([\[\{]\s*),+", r"\1", s)`. -/
def subLeadingGo : Nat → List Char → List Char
  | 0, s => s
  | fuel + 1, s =>
    match s with
    | [] => []
    | c :: rest =>
      if c == '[' || c == obrace then
        let p := List.span pySpaceB rest
        let q := List.span (fun x => x == ',') p.2
        if q.1.isEmpty then c :: subLeadingGo fuel rest
        else c :: (p.1 ++ subLeadingGo fuel q.2)
      else c :: subLeadingGo fuel rest

/-- `fix_leading_commas` of `jsonfix.py`. -/
def fix_leading_commas (s : List Char) : List Char :=
  iterFix (s.length + 1) (fun t => subLeadingGo (t.length + 1) t) s

/-- One pass of `re.sub(r",(\s*[\]\}])", r"\1", s)`. -/
def subTrailingGo : Nat → List Char → List Char
  | 0, s => s
  | fuel + 1, s =>
    match s with
    | [] => []
    | c :: rest =>
      if c == ',' then
        let p := List.span pySpaceB rest
        match p.2 with
        | b :: r2 =>
          if b == ']' || b == cbrace then p.1 ++ b :: subTrailingGo fuel r2
          else ',' :: subTrailingGo fuel rest
        | [] => ',' :: subTrailingGo fuel rest
      else c :: subTrailingGo fuel rest

/-- `fix_trailing_commas` of `jsonfix.py`. -/
def fix_trailing_commas (s : List Char) : List Char :=
  iterFix (s.length + 1) (fun t => subTrailingGo (t.length + 1) t) s

/-- `fix_all` of `jsonfix.py`, with the fix sequence written exactly as
the source applies it. -/
def fix_all (s : List Char) : List Char :=
  let c1 := fix_bom s
  let c2 := fix_comments c1
  let c3 := fix_control_characters c2
  let c4 := fix_infinity_nan c3
  let c5 := fix_single_quotes c4
  let c6 := fix_unquoted_keys c5
  let c7 := fix_multiple_commas c6
  let c8 := fix_leading_commas c7
  fix_trailing_commas c8

/-- `validate` of `jsonfix.py`: whether `json.loads` succeeds. -/
def validate (content : List Char) : Bool := (pyJsonParse (content.map Char.toNat)).isSome

/-- `fix_and_validate` of `jsonfix.py`: validate first, return the
content untouched when already valid, otherwise apply `fix_all` and
re-validate.  The second component is the reported success flag. -/
def fix_and_validate (content : List Char) : List Char × Bool :=
  if validate content then (content, true)
  else
    let fixed := fix_all content
    (fixed, validate fixed)

/-! ## Theorems for claim C9 (`normalize_channel`) -/

theorem dictLookup_mem (k v : String) :
    ∀ l : List (String × String), dictLookup k l = some v → v ∈ l.map Prod.snd := by
  intro l
  induction l with
  | nil => intro h; simp [dictLookup] at h
  | cons p rest ih =>
    intro h
    rw [dictLookup] at h
    by_cases hk : (k == p.1) = true
    · simp [hk] at h
      simp [← h]
    · simp [hk] at h
      simp [ih h]

theorem channel_map_values_fixed :
    ∀ v ∈ CHANNEL_MAP.map Prod.snd,
      listStartsWith v.data ("rai-".data) = true ∧ normalize_channel v = v := by
  decide

theorem listStartsWith_append (p rest : List Char) :
    listStartsWith (p ++ rest) p = true := by
  induction p with
  | nil => cases rest <;> rfl
  | cons c cs ih => simp [listStartsWith, ih]

/-- C9 (corrected): the result of `normalize_channel` always begins
with `"rai-"` — unconditionally — while the claimed idempotence is
false in general (see the counterexample): it holds exactly under the
side condition that the cleaned form of the normalized name is not
mapped by `CHANNEL_MAP` to a different string. -/
theorem normalize_channel_rai_and_cond_idem (c : String) :
    listStartsWith (normalize_channel c).data ("rai-".data) = true ∧
      ((∀ v, dictLookup (cleanChannel (normalize_channel c)) CHANNEL_MAP = some v →
          v = normalize_channel c) →
        normalize_channel (normalize_channel c) = normalize_channel c) := by
  rcases hl : dictLookup (cleanChannel c) CHANNEL_MAP with _ | v
  · by_cases hs : listStartsWith c.data ("rai-".data) = true
    · have hc : normalize_channel c = c := by
        rw [normalize_channel, hl]
        simp [hs]
      rw [hc]
      refine ⟨hs, fun _ => ?_⟩
      rw [normalize_channel, hl]
      simp [hs]
    · have hc : normalize_channel c =
          String.mk (("rai-".data) ++ (c.data.map asciiLower)) := by
        rw [normalize_channel, hl]
        simp [hs]
      have hpre : listStartsWith (normalize_channel c).data ("rai-".data) = true := by
        rw [hc]
        exact listStartsWith_append _ _
      refine ⟨hpre, fun h => ?_⟩
      rcases hl2 : dictLookup (cleanChannel (normalize_channel c)) CHANNEL_MAP with _ | w
      · rw [normalize_channel, hl2]
        simp [hpre]
      · rw [normalize_channel, hl2]
        simpa using h w hl2
  · have hc : normalize_channel c = v := by rw [normalize_channel, hl]
    have hv := channel_map_values_fixed v (dictLookup_mem _ _ _ hl)
    rw [hc]
    exact ⟨hv.1, fun _ => by rw [hv.2]⟩

/-- Witness for C9: the theorem applied at the concrete channel name
`"foo"`, whose idempotence side condition holds by evaluation. -/
theorem normalize_channel_rai_and_cond_idem_witness :
    listStartsWith (normalize_channel "foo").data ("rai-".data) = true ∧
      normalize_channel (normalize_channel "foo") = normalize_channel "foo" :=
  ⟨(normalize_channel_rai_and_cond_idem "foo").1,
    (normalize_channel_rai_and_cond_idem "foo").2 (by decide)⟩

/-- Counterexample for C9: `normalize_channel` is not idempotent; on
`"news24"` one application gives `"rai-news24"`, a second collapses it
to the canonical `"rai-news-24"`. -/
theorem normalize_channel_idempotence_fails :
    normalize_channel (normalize_channel "news24") ≠ normalize_channel "news24" := by
  decide

/-! ## Theorems for claim C7 (filters are subsequences) -/

theorem filter_by_dfp_go_sublist (tipo genere : Option String) :
    ∀ events : List Event, List.Sublist (filter_by_dfp_go tipo genere events) events := by
  intro events
  induction events with
  | nil => simp [filter_by_dfp_go]
  | cons e rest ih =>
    rw [filter_by_dfp_go]
    split
    · exact ih.cons e
    · split
      · exact ih.cons e
      · split
        · exact ih.cons e
        · exact ih.cons₂ e

theorem time_range_filter_go_sublist (dalle alle : Option String) :
    ∀ events : List Event, List.Sublist (time_range_filter_go dalle alle events) events := by
  intro events
  induction events with
  | nil => simp [time_range_filter_go]
  | cons e rest ih =>
    rw [time_range_filter_go]
    split
    · exact ih.cons e
    · split
      · exact ih.cons e
      · exact ih.cons₂ e

/-- C7 (confirmed): both schedule filters only ever select a
subsequence of their input (each output event occurs unmodified, in the
same relative order), and `filter_by_dfp` with neither `tipo` nor
`genere` set returns its input unchanged. -/
theorem schedule_filters_are_sublists (events : List Event)
    (tipo genere dalle alle : Option String) :
    List.Sublist (filter_by_dfp events tipo genere) events ∧
      List.Sublist (time_range_filter dalle alle events) events ∧
      filter_by_dfp events none none = events := by
  refine ⟨?_, ?_, by simp [filter_by_dfp, pyTruthyOpt]⟩
  · rw [filter_by_dfp]
    split
    · exact List.Sublist.refl events
    · exact filter_by_dfp_go_sublist tipo genere events
  · rw [time_range_filter]
    split
    · exact List.Sublist.refl events
    · exact time_range_filter_go_sublist dalle alle events

/-! ## Theorems for claim C4 (`fetch_schedule`) -/

/-- C4 (confirmed): `fetch_schedule` returns `None` exactly when the
status is not 200 or the body is not valid JSON, prints an error
message exactly in those cases, and otherwise returns the parsed JSON
body. -/
theorem fetch_schedule_spec (resp : HttpResponse) :
    ((fetch_schedule resp).1 = none ↔
      resp.status ≠ 200 ∨ pyJsonParse (strCodes resp.body) = none) ∧
    ((fetch_schedule resp).2 ≠ [] ↔ (fetch_schedule resp).1 = none) ∧
    (resp.status = 200 → (fetch_schedule resp).1 = pyJsonParse (strCodes resp.body)) := by
  rw [fetch_schedule]
  by_cases hs : resp.status = 200
  · rcases hp : pyJsonParse (strCodes resp.body) with _ | v
    · simp [hs, hp]
    · simp [hs, hp]
  · simp [hs]

/-- Witness for C4: a 200 response with body `"[]"` is returned parsed. -/
theorem fetch_schedule_spec_witness :
    (fetch_schedule ⟨200, "[]"⟩).1 = pyJsonParse (strCodes "[]") :=
  (fetch_schedule_spec ⟨200, "[]"⟩).2.2 rfl

/-! ## Theorems for claim C6 (`fix_all` is the ordered composition) -/

/-- C6 (confirmed): `fix_all` is the composition of the individual
string-repair passes in the fixed source order: BOM, comments, control
characters, Infinity/NaN/undefined, single quotes, unquoted keys,
multiple commas, leading commas, trailing commas. -/
theorem fix_all_is_ordered_composition (s : List Char) :
    fix_all s =
      fix_trailing_commas (fix_leading_commas (fix_multiple_commas
        (fix_unquoted_keys (fix_single_quotes (fix_infinity_nan
          (fix_control_characters (fix_comments (fix_bom s)))))))) := rfl

/-! ## Theorems for claim C8 (`fix_and_validate` on valid input) -/

/-- C8 (confirmed): on content that already validates as JSON,
`fix_and_validate` returns exactly that content with success `true`
and no repair pass runs; the `fix_all` repair is applied only to
content failing the initial validation. -/
theorem fix_and_validate_valid_unchanged (s : List Char) :
    (validate s = true → fix_and_validate s = (s, true)) ∧
      (validate s = false → (fix_and_validate s).1 = fix_all s) := by
  constructor
  · intro h
    rw [fix_and_validate, h]
    simp
  · intro h
    rw [fix_and_validate, h]
    simp

/-- Witness for C8: the valid JSON text `"[1]"` is returned unchanged
with success `true`. -/
theorem fix_and_validate_valid_unchanged_witness :
    fix_and_validate ("[1]".data) = ("[1]".data, true) :=
  (fix_and_validate_valid_unchanged ("[1]".data)).1 rfl

/-! ## Dates and times (`datetime` model)

Python `datetime` is a proleptic-Gregorian calendar bounded to years
1..9999; `timedelta` is bounded to at most 999999999 days in
magnitude; both have microsecond resolution.  Dates are modelled by
their fields plus a rata-die day number (days since 0001-01-01 = day
1), datetimes by integer microseconds. -/

/-- Gregorian leap year. -/
def isLeap (y : Nat) : Bool := y % 4 == 0 && (y % 100 != 0 || y % 400 == 0)

/-- Cumulative day counts before each month of a common year. -/
def monthOffsets : List Nat := [0, 31, 59, 90, 120, 151, 181, 212, 243, 273, 304, 334]

/-- Days in the year before month `m`. -/
def daysBeforeMonth (y m : Nat) : Nat :=
  (monthOffsets.getD (m - 1) 0) + (if 3 ≤ m && isLeap y then 1 else 0)

/-- Rata-die day number of a date (0001-01-01 is day 1). -/
def toRataDie (y m d : Nat) : Nat :=
  365 * (y - 1) + (y - 1) / 4 - (y - 1) / 100 + (y - 1) / 400 + daysBeforeMonth y m + d

/-- A Python `date`. -/
structure PyDate where
  y : Nat
  m : Nat
  d : Nat
deriving DecidableEq

/-- Numeric value of a decimal digit character. -/
def digitVal (c : Char) : Option Nat :=
  if 48 ≤ c.toNat && c.toNat ≤ 57 then some (c.toNat - 48) else none

/-- Valid underscore-grouped digit string, as accepted by Python
`int()` after the optional sign: nonempty, every underscore strictly
between digits. -/
def digitsUnd : List Char → Bool
  | [] => false
  | [c] => (digitVal c).isSome
  | c :: d :: rest =>
    match digitVal c with
    | none => false
    | some _ => if d == '_' then digitsUnd rest else digitsUnd (d :: rest)

/-- Numeric value of a digit run given as characters. -/
def digitsToNatChars (ds : List Char) : Nat :=
  ds.foldl (fun acc c => acc * 10 + (c.toNat - 48)) 0

/-- Model of Python `int(s)` on a string: strip whitespace, optional
sign, underscore-grouped decimal digits (ASCII). -/
def pyIntParse (s : List Char) : Option Int :=
  let t := ((s.dropWhile pySpaceB).reverse.dropWhile pySpaceB).reverse
  match t with
  | [] => none
  | c :: rest =>
    let p : Bool × List Char :=
      if c == '+' then (false, rest) else if c == '-' then (true, rest) else (false, t)
    if digitsUnd p.2 then
      let v := digitsToNatChars (p.2.filter (fun x => !(x == '_')))
      some (if p.1 then -(v : Int) else (v : Int))
    else none

/-! ### `_strptime` regex alternatives

Python's `strptime` compiles each directive to a regex with ordered
alternatives and backtracking: `%d` is `3[01]|[12]\d|0[1-9]|[1-9]`,
`%m` is `1[0-2]|0[1-9]|[1-9]`, `%H` is `2[0-3]|[0-1]\d|\d`, `%M` is
`[0-5]\d|\d`, `%Y` is exactly four digits.  Each candidate function
returns the possible (value, rest) pairs in priority order. -/

/-- Candidates for `%H`. -/
def hourCands : List Char → List (Nat × List Char)
  | [] => []
  | [a] =>
    match digitVal a with
    | some x => [(x, [])]
    | none => []
  | a :: b :: rest =>
    let two : List (Nat × List Char) :=
      match digitVal a, digitVal b with
      | some x, some y =>
        let v := 10 * x + y
        if v ≤ 23 then [(v, rest)] else []
      | _, _ => []
    let one : List (Nat × List Char) :=
      match digitVal a with
      | some x => [(x, b :: rest)]
      | none => []
    two ++ one

/-- Candidates for `%M`. -/
def minuteCands : List Char → List (Nat × List Char)
  | [] => []
  | [a] =>
    match digitVal a with
    | some x => [(x, [])]
    | none => []
  | a :: b :: rest =>
    let two : List (Nat × List Char) :=
      match digitVal a, digitVal b with
      | some x, some y =>
        let v := 10 * x + y
        if v ≤ 59 then [(v, rest)] else []
      | _, _ => []
    let one : List (Nat × List Char) :=
      match digitVal a with
      | some x => [(x, b :: rest)]
      | none => []
    two ++ one

/-- First success of a fallible function over a candidate list
(regex-alternative backtracking). -/
def firstSome {α β : Type} (f : α → Option β) : List α → Option β
  | [] => none
  | x :: xs =>
    match f x with
    | some r => some r
    | none => firstSome f xs

/-- `datetime.strptime(s, "%H:%M")` as (hour, minute). -/
def strptimeHM (s : List Char) : Option (Nat × Nat) :=
  firstSome (fun hc =>
    match hc.2 with
    | c :: r2 =>
      if c == ':' then
        firstSome (fun mc =>
          match mc.2 with
          | [] => some (hc.1, mc.1)
          | _ :: _ => none) (minuteCands r2)
      else none
    | [] => none) (hourCands s)

/-! ## `parse_date` from `troverai/utils.py` (claim C5) -/

/-- The Python exceptions the embedded code can raise. -/
inductive PyExc where
  | overflowError
  | valueError
  | typeError
  | attributeError
  | keyError
deriving DecidableEq

/-- Python `s.split(sep)` for a one-character separator. -/
def splitOnChar (sep : Char) : List Char → List (List Char)
  | [] => [[]]
  | c :: rest =>
    let r := splitOnChar sep rest
    if c == sep then [] :: r
    else
      match r with
      | h :: t => (c :: h) :: t
      | [] => [[c]]

/-- A datetime as absolute microseconds (rata-die day times the
microseconds of a day, plus the microsecond of day). -/
def dtAbs (d : PyDate) (usec : Nat) : Int :=
  (toRataDie d.y d.m d.d : Int) * 86400000000 + usec

/-- `datetime.min` in absolute microseconds. -/
def MIN_DT_ABS : Int := 86400000000

/-- `datetime.max` (9999-12-31 23:59:59.999999) in absolute
microseconds. -/
def MAX_DT_ABS : Int := 3652059 * 86400000000 + 86399999999

/-- `is_current_program` from `troverai/utils.py`, with `datetime.now()`
passed explicitly as its date `nd` and microsecond-of-day `nu`.  An
empty or unparseable `%H:%M` start time returns `False` (the
`ValueError` is caught), as do non-numeric fields of a three-part
duration; a `timedelta` whose normalized day count exceeds 999999999,
or an end time outside `datetime`'s range, raises an uncaught
`OverflowError`. -/
def is_current_program (nd : PyDate) (nu : Nat) (time_str duration_str : String) :
    Except PyExc Bool :=
  if !pyTruthy time_str then Except.ok false
  else
    match strptimeHM time_str.data with
    | none => Except.ok false
    | some hm =>
      let progAbs : Int := dtAbs nd ((hm.1 * 60 + hm.2) * 60 * 1000000)
      let nowAbs : Int := dtAbs nd nu
      if pyTruthy duration_str then
        match splitOnChar ':' duration_str.data with
        | [p0, p1, p2] =>
          match pyIntParse p0, pyIntParse p1, pyIntParse p2 with
          | some hh, some mm, some ss =>
            let total : Int := hh * 3600 + mm * 60 + ss
            let days : Int := Int.fdiv total 86400
            if days > 999999999 || days < -999999999 then Except.error PyExc.overflowError
            else
              let endAbs := progAbs + total * 1000000
              if endAbs > MAX_DT_ABS || endAbs < MIN_DT_ABS then
                Except.error PyExc.overflowError
              else Except.ok (decide (progAbs ≤ nowAbs) && decide (nowAbs ≤ endAbs))
          | _, _, _ => Except.ok false
        | _ => Except.ok (decide (progAbs ≤ nowAbs))
      else Except.ok (decide (progAbs ≤ nowAbs))

/-- C10 (corrected): `is_current_program` returns `False` on an empty
or non-`%H:%M` start time and on non-numeric fields of a three-part
duration, and it returns a boolean in every other case — except that
sufficiently large numeric durations raise an uncaught
`OverflowError`, the only exception it can raise. -/
theorem is_current_program_spec (nd : PyDate) (nu : Nat) (ts ds : String) :
    (strptimeHM ts.data = none → is_current_program nd nu ts ds = Except.ok false) ∧
    (∀ p0 p1 p2, splitOnChar ':' ds.data = [p0, p1, p2] →
      (pyIntParse p0 = none ∨ pyIntParse p1 = none ∨ pyIntParse p2 = none) →
      is_current_program nd nu ts ds = Except.ok false) ∧
    (∀ e, is_current_program nd nu ts ds = Except.error e → e = PyExc.overflowError) ∧
    (is_current_program nd nu ts ds = Except.ok true ∨
      is_current_program nd nu ts ds = Except.ok false ∨
      is_current_program nd nu ts ds = Except.error PyExc.overflowError) := by
  have herr : ∀ e, is_current_program nd nu ts ds = Except.error e →
      e = PyExc.overflowError := by
    intro e h
    cases ht : pyTruthy ts
    · simp [is_current_program, ht] at h
    · rcases hhm : strptimeHM ts.data with _ | hm
      · simp [is_current_program, ht, hhm] at h
      · cases hds : pyTruthy ds
        · simp [is_current_program, ht, hhm, hds] at h
        · rcases hsp : splitOnChar ':' ds.data with _ | ⟨p0, _ | ⟨p1, _ | ⟨p2, _ | ⟨p3, t⟩⟩⟩⟩
          · simp [is_current_program, ht, hhm, hds, hsp] at h
          · simp [is_current_program, ht, hhm, hds, hsp] at h
          · simp [is_current_program, ht, hhm, hds, hsp] at h
          · rcases h0 : pyIntParse p0 with _ | v0
            · simp [is_current_program, ht, hhm, hds, hsp, h0] at h
            · rcases h1 : pyIntParse p1 with _ | v1
              · simp [is_current_program, ht, hhm, hds, hsp, h0, h1] at h
              · rcases h2 : pyIntParse p2 with _ | v2
                · simp [is_current_program, ht, hhm, hds, hsp, h0, h1, h2] at h
                · simp only [is_current_program, ht, hhm, hds, hsp, h0, h1, h2] at h
                  split_ifs at h
                  all_goals
                    first
                    | exact (Except.error.inj h).symm
                    | exact Except.noConfusion h
          · simp [is_current_program, ht, hhm, hds, hsp] at h
  refine ⟨?_, ?_, herr, ?_⟩
  · intro h
    cases ht : pyTruthy ts
    · simp [is_current_program, ht]
    · simp [is_current_program, ht, h]
  · intro p0 p1 p2 hsplit hbad
    have hne : ds ≠ "" := by
      intro hcon
      rw [hcon] at hsplit
      simp [splitOnChar, String.data] at hsplit
    have hds : pyTruthy ds = true := by simp [pyTruthy, hne]
    cases ht : pyTruthy ts
    · simp [is_current_program, ht]
    · rcases hhm : strptimeHM ts.data with _ | hm
      · simp [is_current_program, ht, hhm]
      · rcases h0 : pyIntParse p0 with _ | v0
        · simp [is_current_program, ht, hhm, hds, hsplit, h0]
        · rcases h1 : pyIntParse p1 with _ | v1
          · simp [is_current_program, ht, hhm, hds, hsplit, h0, h1]
          · rcases h2 : pyIntParse p2 with _ | v2
            · simp [is_current_program, ht, hhm, hds, hsplit, h0, h1, h2]
            · rcases hbad with hb | hb | hb
              · rw [h0] at hb; exact Option.noConfusion hb
              · rw [h1] at hb; exact Option.noConfusion hb
              · rw [h2] at hb; exact Option.noConfusion hb
  · rcases hres : is_current_program nd nu ts ds with err | b
    · right; right
      rw [herr err hres]
    · cases b
      · right; left; rfl
      · left; rfl

/-- Witness for C10: a non-`%H:%M` start time yields `False`. -/
theorem is_current_program_spec_witness :
    is_current_program ⟨2026, 10, 12⟩ 0 "99:99" "" = Except.ok false :=
  (is_current_program_spec ⟨2026, 10, 12⟩ 0 "99:99" "").1 rfl

/-- Counterexample for C10: `is_current_program` is not total — on the
numeric duration `"24000000000:00:00"` the `timedelta` day count is
10^9 > 999999999, so Python raises an uncaught `OverflowError` instead
of returning a boolean. -/
theorem is_current_program_overflow_cex :
    is_current_program ⟨2026, 10, 12⟩ 43200000000 "12:00" "24000000000:00:00" =
      Except.error PyExc.overflowError := rfl

/-! ## JWT decoding (`SperimenteRAI/raiplay_auth.py`, claims C1, C2)

`decode_jwt` splits the token on dots, re-pads the middle part, decodes
it with `base64.urlsafe_b64decode` and parses the bytes with
`json.loads`.  The base64 model follows CPython's non-strict
`binascii.a2b_base64`: characters outside the alphabet are discarded,
padding at quad position >= 2 ends the current quad, and leftover
characters at the end raise `binascii.Error` (a `ValueError`, which
`decode_jwt` catches).  `json.loads` on bytes is modelled on its
default utf-8 path (utf-8-sig BOM stripped; the utf-16/32 BOM
heuristics of `json.detect_encoding` are not modelled). -/

/-- Base64 digit value after the urlsafe translation (`-` maps to 62
like `+`, `_` to 63 like `/`). -/
def b64Val (c : Char) : Option Nat :=
  if 65 ≤ c.toNat && c.toNat ≤ 90 then some (c.toNat - 65)
  else if 97 ≤ c.toNat && c.toNat ≤ 122 then some (c.toNat - 71)
  else if 48 ≤ c.toNat && c.toNat ≤ 57 then some (c.toNat + 4)
  else if c == '+' || c == '-' then some 62
  else if c == '/' || c == '_' then some 63
  else none

/-- The quad scanner of `binascii.a2b_base64` (non-strict) on an
already-filtered input, following the CPython loop: `quadPos` counts
characters of the current quad, `buf` holds their bits, and bytes are
emitted eagerly (one per character after the first of a quad).  A pad
at quad position >= 2 increments the pad count `pads`; when position
plus pads reaches four the whole decode ends successfully and the
rest of the input is discarded.  A pad that does not yet complete a
sequence is skipped (the count resets at the next data character),
and pads at position < 2 are ignored entirely.  A quad left
incomplete at the end of input raises `binascii.Error` (`none`). -/
def b64Go : Nat → List Char → Nat → Nat → Nat → Option (List Nat)
  | 0, _, _, _, _ => none
  | _ + 1, [], quadPos, _, _ => if quadPos == 0 then some [] else none
  | fuel + 1, c :: rest, quadPos, buf, pads =>
    if c == '=' then
      if 2 ≤ quadPos then
        if 4 ≤ quadPos + pads + 1 then some []
        else b64Go fuel rest quadPos buf (pads + 1)
      else b64Go fuel rest quadPos buf pads
    else
      match b64Val c with
      | some v =>
        let buf2 := buf * 64 + v
        if quadPos == 0 then b64Go fuel rest 1 buf2 0
        else if quadPos == 1 then
          (b64Go fuel rest 2 buf2 0).map (fun bs => (buf2 / 16) :: bs)
        else if quadPos == 2 then
          (b64Go fuel rest 3 buf2 0).map (fun bs => ((buf2 / 4) % 256) :: bs)
        else
          (b64Go fuel rest 0 0 0).map (fun bs => (buf2 % 256) :: bs)
      | none => b64Go fuel rest quadPos buf pads

/-- `base64.urlsafe_b64decode`: discard foreign characters, then run
the quad scanner.  (Discarded characters neither increment nor reset
the pad count in CPython, so pre-filtering is exact.) -/
def pyB64UrlDecode (payload : List Char) : Option (List Nat) :=
  let filtered := payload.filter (fun c => (b64Val c).isSome || c == '=')
  b64Go (filtered.length + 1) filtered 0 0 0

/-- Strict utf-8 decoding of a byte sequence to code points (rejecting
continuation errors, overlong forms, surrogates and values beyond
U+10FFFF), the model of Python `bytes.decode("utf-8")`. -/
def utf8Go : Nat → List Nat → Option (List Nat)
  | 0, _ => none
  | _ + 1, [] => some []
  | fuel + 1, b :: rest =>
    if b < 128 then (utf8Go fuel rest).map (fun cs => b :: cs)
    else if b < 194 then none
    else if b < 224 then
      match rest with
      | b2 :: rest2 =>
        if 128 ≤ b2 && b2 < 192 then
          (utf8Go fuel rest2).map (fun cs => ((b - 192) * 64 + (b2 - 128)) :: cs)
        else none
      | [] => none
    else if b < 240 then
      match rest with
      | b2 :: b3 :: rest2 =>
        let lo2 := if b == 224 then 160 else 128
        let hi2 := if b == 237 then 160 else 192
        if lo2 ≤ b2 && b2 < hi2 && 128 ≤ b3 && b3 < 192 then
          (utf8Go fuel rest2).map
            (fun cs => (((b - 224) * 64 + (b2 - 128)) * 64 + (b3 - 128)) :: cs)
        else none
      | _ => none
    else if b < 245 then
      match rest with
      | b2 :: b3 :: b4 :: rest2 =>
        let lo2 := if b == 240 then 144 else 128
        let hi2 := if b == 244 then 144 else 192
        if lo2 ≤ b2 && b2 < hi2 && 128 ≤ b3 && b3 < 192 && 128 ≤ b4 && b4 < 192 then
          (utf8Go fuel rest2).map
            (fun cs => ((((b - 240) * 64 + (b2 - 128)) * 64 + (b3 - 128)) * 64 + (b4 - 128)) :: cs)
        else none
      | _ => none
    else none

/-- `bytes.decode("utf-8")`. -/
def pyUtf8Decode (bs : List Nat) : Option (List Nat) := utf8Go (bs.length + 1) bs

/-- `json.loads` on bytes: strip a utf-8 BOM, decode utf-8, parse. -/
def pyJsonLoadsBytes (bs : List Nat) : Option JVal :=
  let bs2 := if listStartsWithNat bs [239, 187, 191] then bs.drop 3 else bs
  match pyUtf8Decode bs2 with
  | none => none
  | some cps => pyJsonParse cps

/-- The payload part of `decode_jwt`: re-pad to a multiple of four,
base64url-decode, json-parse; `none` models the caught `ValueError` /
`json.JSONDecodeError` / `UnicodeDecodeError`. -/
def jwtPayloadDecode (payload : List Char) : Option JVal :=
  let padding := 4 - payload.length % 4
  let padded := if padding ≠ 4 then payload ++ List.replicate padding '=' else payload
  match pyB64UrlDecode padded with
  | none => none
  | some bytes => pyJsonLoadsBytes bytes

/-- `decode_jwt` from `raiplay_auth.py`: split on dots, demand exactly
three parts, decode the second. -/
def decode_jwt (token : String) : Option JVal :=
  let parts := splitOnChar '.' token.data
  if parts.length ≠ 3 then none
  else jwtPayloadDecode (parts.getD 1 [])

/-- The code points of the key `"exp"`. -/
def expKey : List Nat := [101, 120, 112]

/-- Python dict `get` over parsed JSON object items: the last
occurrence of a duplicated key wins. -/
def objGet : List (List Nat × JVal) → List Nat → Option JVal
  | [], _ => none
  | (k1, v) :: rest, k =>
    match objGet rest k with
    | some r => some r
    | none => if k1 == k then some v else none

/-- Division rounding half to even (CPython's timestamp-to-microsecond
conversion). -/
def roundHalfEvenDiv (a : Int) (b : Nat) : Int :=
  let q := Int.fdiv a b
  let r := a - q * b
  if 2 * r < (b : Int) then q
  else if 2 * r > (b : Int) then q + 1
  else if q % 2 == 0 then q else q + 1

/-- `datetime.min` as microseconds since the Unix epoch. -/
def MIN_TS_USEC : Int := -719162 * 86400000000

/-- `datetime.max` as microseconds since the Unix epoch
(253402300799.999999 seconds). -/
def MAX_TS_USEC : Int := 2932896 * 86400000000 + 86399999999

/-- Largest second count of a 64-bit `time_t`. -/
def TIME_T_MAX_SEC : Int := 9223372036854775807

/-- Smallest second count of a 64-bit `time_t`. -/
def TIME_T_MIN_SEC : Int := -9223372036854775808

/-- `datetime.fromtimestamp` on an exact decimal number `m * 10^e10`
seconds: the timestamp in microseconds; a result beyond `datetime`'s
year range but still representable in `time_t` raises `ValueError`
(`year out of range`), and a magnitude beyond `time_t` raises
`OverflowError`.  (The local timezone is modelled as UTC; glibc
`localtime` failures between the year-field bound and the `time_t`
bound surface as `OSError` in CPython — no claim depends on the error
kind in that zone, and it is modelled as `ValueError`.) -/
def fromtimestampUsec (m e10 : Int) : Except PyExc (Option Int) :=
  let usec : Int :=
    if 0 ≤ e10 + 6 then m * (10 : Int) ^ (e10 + 6).toNat
    else roundHalfEvenDiv m ((10 : Nat) ^ (-(e10 + 6)).toNat)
  if MIN_TS_USEC ≤ usec && usec ≤ MAX_TS_USEC then Except.ok (some usec)
  else if TIME_T_MIN_SEC * 1000000 ≤ usec && usec ≤ TIME_T_MAX_SEC * 1000000 + 999999 then
    Except.error PyExc.valueError
  else Except.error PyExc.overflowError

/-- `get_token_expiry` from `raiplay_auth.py`: `None` when the token
does not decode or the payload has no `"exp"` (a JSON `null` also
reads back as Python `None`); a numeric `"exp"` goes through
`datetime.fromtimestamp`, whose errors — like the `AttributeError` on
a non-dict payload and the `TypeError` on a non-numeric `"exp"` — are
not caught here. -/
def get_token_expiry (token : String) : Except PyExc (Option Int) :=
  match decode_jwt token with
  | none => Except.ok none
  | some (JVal.obj items) =>
    match objGet items expKey with
    | none => Except.ok none
    | some JVal.null => Except.ok none
    | some (JVal.num m e10) => fromtimestampUsec m e10
    | some (JVal.bool b) => Except.ok (some (if b then 1000000 else 0))
    | some JVal.nan => Except.error PyExc.valueError
    | some (JVal.inf _) => Except.error PyExc.overflowError
    | some (JVal.str _) => Except.error PyExc.typeError
    | some (JVal.arr _) => Except.error PyExc.typeError
    | some (JVal.obj _) => Except.error PyExc.typeError
  | some _ => Except.error PyExc.attributeError

/-- `TOKEN_REFRESH_BUFFER` (five minutes) in microseconds. -/
def TOKEN_REFRESH_BUFFER_USEC : Int := 300000000

/-- `is_token_expired` from `raiplay_auth.py`, with `datetime.now()`
passed as epoch microseconds: `False` when no expiry can be
determined, otherwise whether now is at or past expiry minus the
buffer (default five minutes).  `expiry - buffer` is `datetime`
arithmetic: when the result leaves the representable range (an expiry
within the buffer of `datetime.min`), Python raises an uncaught
`OverflowError`. -/
def is_token_expired (nowUsec : Int) (token : String) (buffer : Option Int) :
    Except PyExc Bool :=
  let buf := buffer.getD TOKEN_REFRESH_BUFFER_USEC
  match get_token_expiry token with
  | Except.error e => Except.error e
  | Except.ok none => Except.ok false
  | Except.ok (some exp) =>
    if exp - buf < MIN_TS_USEC || MAX_TS_USEC < exp - buf then
      Except.error PyExc.overflowError
    else Except.ok (decide (nowUsec ≥ exp - buf))

/-! ## Theorems for claim C1 (`is_token_expired`) -/

/-- The cached token file name (`raiplay_tokens.json`). -/
def TOKEN_FILE : String := "raiplay_tokens.json"

/-- The config cache file name (`raiplay_config_cache.json`). -/
def CONFIG_CACHE_FILE : String := "raiplay_config_cache.json"

/-- The environment of one `fetch_config` call: the state of the cache
file (absent, unparseable, or parsed with its `_cached_at` timestamp
and `config` entry), the clock, and the HTTP outcome. -/
structure ConfigEnv where
  cache : Option (Option (Int × Option JVal))
  nowUsec : Int
  raised : Bool
  status : Nat
  body : String

/-- `fetch_config` from `raiplay_auth.py`: serve from the cache file
while it parses and is less than a day old; otherwise fetch the
config over HTTP, returning `None` on request errors or non-200
statuses (and on bodies `response.json()` rejects, whose error is a
`requests.RequestException` subclass), and writing the fresh config
into the cache file on success — the only file this function
writes. -/
def fetch_config (env : ConfigEnv) (force_refresh : Bool) : Option JVal × List String :=
  let cacheHit : Option (Option JVal) :=
    if force_refresh then none
    else
      match env.cache with
      | some (some (cachedAt, cfg)) =>
        if env.nowUsec - cachedAt < 86400000000 then some cfg else none
      | _ => none
  match cacheHit with
  | some cfg => (cfg, [])
  | none =>
    if env.raised then (none, [])
    else if env.status ≠ 200 then (none, [])
    else
      match pyJsonParse (strCodes env.body) with
      | none => (none, [])
      | some config => (some config, [CONFIG_CACHE_FILE])

/-- Indexing `value[key]` on a parsed JSON value: `none` models the
`KeyError`/`TypeError` the config-path walk catches. -/
def jvIndex (v : JVal) (k : List Nat) : Option JVal :=
  match v with
  | JVal.obj items => objGet items k
  | _ => none

/-- Walk a key path through a parsed JSON value. -/
def jvPath (v : JVal) : List (List Nat) → Option JVal
  | [] => some v
  | k :: ks =>
    match jvIndex v k with
    | some w => jvPath w ks
    | none => none

/-- `get_domain_api_key` from `raiplay_auth.py`, given the already
fetched config: try the three known key paths in order; `none` models
the `sys.exit(1)` taken when the config is missing or holds no key. -/
def get_domain_api_key (cfg : Option JVal) : Option JVal :=
  match cfg with
  | none => none
  | some c =>
    match jvPath c [strCodes "userServices", strCodes "raiPlayServicesNew",
        strCodes "raiPlayDomainApiKey"] with
    | some v => some v
    | none =>
      match jvPath c [strCodes "userServices", strCodes "raiPlayServices",
          strCodes "raiPlayDomainApiKey"] with
      | some v => some v
      | none => jvPath c [strCodes "gigya", strCodes "raiPlayDomainApiKey"]

/-- A token dict. -/
abbrev TokenDict := List (String × String)

/-- Python dict assignment `d[k] = v`: overwrite in place, else
append. -/
def dictSet : List (String × String) → String → String → List (String × String)
  | [], k, v => [(k, v)]
  | (k1, v1) :: rest, k, v =>
    if k1 == k then (k1, v) :: rest else (k1, v1) :: dictSet rest k v

/-- `s.strip()` (ASCII whitespace). -/
def pyStrip (s : String) : String :=
  String.mk (((s.data.dropWhile pySpaceB).reverse.dropWhile pySpaceB).reverse)

/-- Occurrences of a character (`s.count(c)` for a single char). -/
def countChar (c : Char) (l : List Char) : Nat := (l.filter (fun x => x == c)).length

/-- The environment of the refresh POST itself. -/
structure RefreshEnv where
  raised : Bool
  status : Nat
  bodyIsJson : Bool
  respOk : Bool
  auth : Option String
  refreshTok : Option String
  bodyText : String
  nowIso : String

/-- How a call that may terminate the process can end: a returned
value, a raised exception, or `sys.exit(1)`. -/
inductive RefreshResult where
  | exit1
  | raised (e : PyExc)
  | ret (r : Option TokenDict)

/-- `refresh_token` from `raiplay_auth.py`.  After the guard on a
usable refresh token, `get_refresh_url()` and `get_domain_api_key()`
each call `fetch_config()`: modelled as one shared fetch (the second
back-to-back call is served by the just-written cache, or fails
identically), whose cache write is part of this call's effects, and
whose failure makes `get_domain_api_key` exit the process with code 1.
Then the POST: building its `Authorization` header reads
`tokens["jwt_token"]` (a `KeyError` on a dict without it, raised
before any response handling); a raised request or non-200 status
returns `None`; a JSON body updates `jwt_token`/`refresh_token` from
its fields, a non-JSON body is accepted as a bare JWT when it has two
dots and starts with `eyJ`; on success `last_refresh` is stamped. -/
def refresh_token (cenv : ConfigEnv) (env : RefreshEnv) (tokens : TokenDict) :
    RefreshResult × List String :=
  if tokens.isEmpty || !pyTruthyOpt (dictLookup "refresh_token" tokens) then
    (RefreshResult.ret none, [])
  else
    let fc := fetch_config cenv false
    match get_domain_api_key fc.1 with
    | none => (RefreshResult.exit1, fc.2)
    | some _ =>
      match dictLookup "jwt_token" tokens with
      | none => (RefreshResult.raised PyExc.keyError, fc.2)
      | some jwt0 =>
        if env.raised then (RefreshResult.ret none, fc.2)
        else if env.status ≠ 200 then (RefreshResult.ret none, fc.2)
        else if env.bodyIsJson then
          if !env.respOk && env.auth.isNone then (RefreshResult.ret none, fc.2)
          else
            let t1 := dictSet tokens "jwt_token" (env.auth.getD jwt0)
            let t2 :=
              match env.refreshTok with
              | some r => if pyTruthy r then dictSet t1 "refresh_token" r else t1
              | none => t1
            (RefreshResult.ret (some (dictSet t2 "last_refresh" env.nowIso)), fc.2)
        else
          let newTok := pyStrip env.bodyText
          if countChar '.' newTok.data == 2 &&
              listStartsWith newTok.data ("eyJ".data) then
            (RefreshResult.ret
              (some (dictSet (dictSet tokens "jwt_token" newTok) "last_refresh" env.nowIso)),
              fc.2)
          else (RefreshResult.ret none, fc.2)

/-- `save_tokens`: one `json.dump` of the dict into the token file;
returned as the list of file names written. -/
def save_tokens (_tokens : TokenDict) : List String := [TOKEN_FILE]

/-- The outcome of an `ensure_valid_token` call: the returned value
(or propagated exception / process exit), the files written, and
whether `refresh_token` was attempted. -/
structure EnsureResult where
  result : RefreshResult
  writes : List String
  refreshAttempted : Bool

/-- The refresh-and-save block of `ensure_valid_token` (lines
374-383): attempt the refresh; a truthy refreshed dict is saved
quietly and returned, otherwise `None` (exits and exceptions
propagate). -/
def ensure_refresh_step (cenv : ConfigEnv) (renv : RefreshEnv) (t : TokenDict) :
    EnsureResult :=
  match refresh_token cenv renv t with
  | (RefreshResult.ret (some r), w) =>
    if r.isEmpty then ⟨RefreshResult.ret none, w, true⟩
    else ⟨RefreshResult.ret (some r), w ++ save_tokens r, true⟩
  | (o, w) => ⟨o, w, true⟩

/-- `ensure_valid_token` from `raiplay_auth.py`: load from file when
no dict is passed, require a truthy `jwt_token`, return the dict
unchanged while the token is not expired, and otherwise — with
`auto_refresh` — run the refresh-and-save step. -/
def ensure_valid_token (nowUsec : Int) (cenv : ConfigEnv) (renv : RefreshEnv)
    (fileTokens : Option TokenDict) (tokens0 : Option TokenDict)
    (auto_refresh : Bool) : EnsureResult :=
  let tokens := match tokens0 with | none => fileTokens | some t => some t
  match tokens with
  | none => ⟨RefreshResult.ret none, [], false⟩
  | some t =>
    let jwtOpt := dictLookup "jwt_token" t
    if !pyTruthyOpt jwtOpt then ⟨RefreshResult.ret none, [], false⟩
    else
      match is_token_expired nowUsec (jwtOpt.getD "") none with
      | Except.error e => ⟨RefreshResult.raised e, [], false⟩
      | Except.ok false => ⟨RefreshResult.ret (some t), [], false⟩
      | Except.ok true =>
        if !auto_refresh then ⟨RefreshResult.ret none, [], false⟩
        else ensure_refresh_step cenv renv t

/-! ## Theorems for claim C2 (`ensure_valid_token`) -/

/-- C2 (corrected): with a non-expired `jwt_token` the dict is
returned unchanged, with no refresh attempt and no file write; when
expired and `auto_refresh` holds, `refresh_token` is attempted — on a
truthy refreshed dict it is saved to the token file (after any config
cache write of the refresh path) and returned, and on an ordinary
refresh failure `None` is returned — but when the refresh path cannot
obtain the RaiPlay config, `get_domain_api_key` exits the process
with code 1 instead of returning `None` (see the counterexample);
with no tokens (passed or on file), a missing/empty `jwt_token`, or
an expired token with `auto_refresh` false, `None` is returned; a
`None` argument falls back to the file tokens. -/
theorem ensure_valid_token_spec (nowUsec : Int) (cenv : ConfigEnv) (renv : RefreshEnv)
    (fileTokens : Option TokenDict) (t : TokenDict) (auto_refresh : Bool) :
    (∀ jwt, dictLookup "jwt_token" t = some jwt → pyTruthy jwt = true →
      is_token_expired nowUsec jwt none = Except.ok false →
      ensure_valid_token nowUsec cenv renv fileTokens (some t) auto_refresh =
        ⟨RefreshResult.ret (some t), [], false⟩) ∧
    (∀ jwt, dictLookup "jwt_token" t = some jwt → pyTruthy jwt = true →
      is_token_expired nowUsec jwt none = Except.ok true →
      (∀ r w, refresh_token cenv renv t = (RefreshResult.ret (some r), w) →
        r.isEmpty = false →
        ensure_valid_token nowUsec cenv renv fileTokens (some t) true =
          ⟨RefreshResult.ret (some r), w ++ [TOKEN_FILE], true⟩) ∧
      (∀ w, refresh_token cenv renv t = (RefreshResult.ret none, w) →
        ensure_valid_token nowUsec cenv renv fileTokens (some t) true =
          ⟨RefreshResult.ret none, w, true⟩) ∧
      (∀ w, refresh_token cenv renv t = (RefreshResult.exit1, w) →
        ensure_valid_token nowUsec cenv renv fileTokens (some t) true =
          ⟨RefreshResult.exit1, w, true⟩) ∧
      ensure_valid_token nowUsec cenv renv fileTokens (some t) false =
        ⟨RefreshResult.ret none, [], false⟩) ∧
    (ensure_valid_token nowUsec cenv renv none none auto_refresh =
      ⟨RefreshResult.ret none, [], false⟩) ∧
    (dictLookup "jwt_token" t = none →
      ensure_valid_token nowUsec cenv renv fileTokens (some t) auto_refresh =
        ⟨RefreshResult.ret none, [], false⟩) ∧
    (ensure_valid_token nowUsec cenv renv fileTokens none auto_refresh =
      ensure_valid_token nowUsec cenv renv fileTokens fileTokens auto_refresh) := by
  refine ⟨?_, ?_, ?_, ?_, ?_⟩
  · intro jwt hl ht hexp
    simp [ensure_valid_token, hl, ht, hexp, pyTruthyOpt]
  · intro jwt hl ht hexp
    refine ⟨?_, ?_, ?_, ?_⟩
    · intro r w hr hremp
      simp [ensure_valid_token, ensure_refresh_step, hl, ht, hexp, hr, hremp,
        pyTruthyOpt, save_tokens]
    · intro w hr
      simp [ensure_valid_token, ensure_refresh_step, hl, ht, hexp, hr, pyTruthyOpt]
    · intro w hr
      simp [ensure_valid_token, ensure_refresh_step, hl, ht, hexp, hr, pyTruthyOpt]
    · simp [ensure_valid_token, hl, ht, hexp, pyTruthyOpt]
  · rfl
  · intro hl
    simp [ensure_valid_token, hl, pyTruthyOpt]
  · rcases fileTokens with _ | ft <;> rfl

/-- Witness for C2: a dict holding a token expiring at `datetime.max`
is returned unchanged at epoch time 0. -/
theorem ensure_valid_token_spec_witness :
    ensure_valid_token 0 ⟨none, 0, true, 0, ""⟩
      ⟨false, 0, false, false, none, none, "", ""⟩ none
      (some [("jwt_token", "h.eyJleHAiOjI1MzQwMjMwMDc5OX0.s")]) true =
      ⟨RefreshResult.ret (some [("jwt_token", "h.eyJleHAiOjI1MzQwMjMwMDc5OX0.s")]),
        [], false⟩ :=
  (ensure_valid_token_spec 0 ⟨none, 0, true, 0, ""⟩
    ⟨false, 0, false, false, none, none, "", ""⟩ none
    [("jwt_token", "h.eyJleHAiOjI1MzQwMjMwMDc5OX0.s")] true).1
    "h.eyJleHAiOjI1MzQwMjMwMDc5OX0.s" rfl rfl rfl

/-- Counterexample for C2: with an expired token, `auto_refresh` on
and a usable refresh token, but no obtainable config (no cache, the
config request fails), `ensure_valid_token` neither returns refreshed
tokens nor `None` — `get_domain_api_key` inside the refresh path
calls `sys.exit(1)`. -/
theorem ensure_valid_token_exit_cex :
    ensure_valid_token 1000000000000000 ⟨none, 0, true, 0, ""⟩
      ⟨false, 0, false, false, none, none, "", ""⟩ none
      (some [("jwt_token", "h.eyJleHAiOjEwfQ.s"), ("refresh_token", "r")]) true =
      ⟨RefreshResult.exit1, [], true⟩ := rfl

/-! ## Theorems for claim C3 (files written by the program) -/

theorem fetch_config_writes (cenv : ConfigEnv) (fr : Bool) :
    ∀ f ∈ (fetch_config cenv fr).2, f = CONFIG_CACHE_FILE := by
  intro f hf
  rw [fetch_config] at hf
  split at hf
  · simp at hf
  · split at hf
    · simp at hf
    · split at hf
      · simp at hf
      · split at hf
        · simp at hf
        · simpa using hf

theorem refresh_token_writes (cenv : ConfigEnv) (renv : RefreshEnv) (t : TokenDict) :
    ∀ f ∈ (refresh_token cenv renv t).2, f = CONFIG_CACHE_FILE := by
  intro f hf
  simp only [refresh_token] at hf
  repeat' split at hf
  all_goals
    first
    | exact fetch_config_writes cenv false f hf
    | simp at hf

theorem ensure_refresh_step_writes (cenv : ConfigEnv) (renv : RefreshEnv) (t : TokenDict) :
    ∀ f ∈ (ensure_refresh_step cenv renv t).writes,
      f = TOKEN_FILE ∨ f = CONFIG_CACHE_FILE := by
  intro f hf
  rcases hrr : refresh_token cenv renv t with ⟨o, w⟩
  have hw2 : ∀ g ∈ w, g = CONFIG_CACHE_FILE := by
    intro g hg
    apply refresh_token_writes cenv renv t
    rw [hrr]
    exact hg
  rcases o with _ | e | ro
  · simp only [ensure_refresh_step, hrr] at hf
    exact Or.inr (hw2 f hf)
  · simp only [ensure_refresh_step, hrr] at hf
    exact Or.inr (hw2 f hf)
  · rcases ro with _ | r
    · simp only [ensure_refresh_step, hrr] at hf
      exact Or.inr (hw2 f hf)
    · simp only [ensure_refresh_step, hrr] at hf
      split at hf
      · exact Or.inr (hw2 f hf)
      · have hf2 : f ∈ w ++ save_tokens r := hf
        rcases List.mem_append.1 hf2 with hwm | htm
        · exact Or.inr (hw2 f hwm)
        · left
          simpa [save_tokens] using htm

/-- C3 (corrected): the program's persistent state is exactly two
cache files — `save_tokens` writes only the token file, `fetch_config`
(and hence the whole refresh path) writes only the config cache file,
and `ensure_valid_token` writes no file other than these two distinct
names. -/
theorem persisted_files_spec (cenv : ConfigEnv) (fr : Bool) (tokens t2 : TokenDict)
    (nowUsec : Int) (renv : RefreshEnv) (ft t0 : Option TokenDict) (ar : Bool) :
    (∀ f ∈ (fetch_config cenv fr).2, f = CONFIG_CACHE_FILE) ∧
    save_tokens tokens = [TOKEN_FILE] ∧
    (∀ f ∈ (refresh_token cenv renv t2).2, f = CONFIG_CACHE_FILE) ∧
    (∀ f ∈ (ensure_valid_token nowUsec cenv renv ft t0 ar).writes,
      f = TOKEN_FILE ∨ f = CONFIG_CACHE_FILE) ∧
    TOKEN_FILE ≠ CONFIG_CACHE_FILE := by
  refine ⟨fetch_config_writes cenv fr, rfl, refresh_token_writes cenv renv t2, ?_,
    by decide⟩
  intro f hf
  simp only [ensure_valid_token] at hf
  split at hf
  · simp at hf
  · split at hf
    · simp at hf
    · split at hf
      · simp at hf
      · simp at hf
      · split at hf
        · simp at hf
        · exact ensure_refresh_step_writes cenv renv _ f hf

/-- Witness for C3: with no cache and a 200 response, `fetch_config`
writes exactly the config cache file, which differs from the token
file. -/
theorem persisted_files_spec_witness :
    CONFIG_CACHE_FILE = CONFIG_CACHE_FILE ∧ TOKEN_FILE ≠ CONFIG_CACHE_FILE :=
  ⟨(persisted_files_spec ⟨none, 0, false, 200, "[]"⟩ false [] [] 0
      ⟨false, 0, false, false, none, none, "", ""⟩ none none false).1
      CONFIG_CACHE_FILE (by decide),
    (persisted_files_spec ⟨none, 0, false, 200, "[]"⟩ false [] [] 0
      ⟨false, 0, false, false, none, none, "", ""⟩ none none false).2.2.2.2⟩

/-- Counterexample for C3: an operation other than token saving does
write a second file — with an empty cache and a 200 JSON response,
`fetch_config` creates `raiplay_config_cache.json`, which is not the
token file. -/
theorem fetch_config_writes_cache_cex :
    fetch_config ⟨none, 0, false, 200, "[]"⟩ false =
      (some (JVal.arr []), [CONFIG_CACHE_FILE]) := rfl
